import Mathlib

/-!
  # Verification of the Volt incident-response core

  Shallow embedding of the Volt incident lifecycle orchestration and
  remediation policy engine: the data model and UI-layer logic are
  translated from `brain-ui/src` (types/index.ts, lib/mock-data.ts,
  lib/api.ts, components/Dashboard.tsx, components/IssueDetail.tsx,
  App.tsx), while the backend components that live outside the provided
  sources (incident state machine, policy gate, remediation executor,
  issue tracker, operator command handlers) are modelled from the spec
  and marked as such in their doc comments.

  JavaScript dates are modelled as `Int` milliseconds relative to an
  arbitrary `now`; JavaScript numbers as `JsNum` (rationals extended
  with NaN and the two infinities) where the IEEE corner cases matter,
  and as `ℚ` elsewhere; `Math.random()` as an explicit stream of
  rationals supplied to the function that consumes it.
-/

namespace Volt

/-- From types/index.ts: the seven incident lifecycle states. -/
inductive IncidentStatus where
  | detected
  | analyzing
  | pending_approval
  | remediating
  | resolved
  | escalated
  | rejected
deriving DecidableEq, Repr

/-- From types/index.ts: incident severity levels. -/
inductive IncidentSeverity where
  | critical
  | high
  | medium
  | low
deriving DecidableEq, Repr

/-- From types/index.ts: the three signal kinds. -/
inductive SignalType where
  | metric
  | log
  | event
deriving DecidableEq, Repr

/-- From types/index.ts: lifecycle states of a RemediationAction. -/
inductive RemediationStatus where
  | pending
  | approved
  | rejected
  | executing
  | completed
  | failed
deriving DecidableEq, Repr

/-- From types/index.ts: the metric trend values, also used by
`generateMetricTimeSeries` in mock-data.ts. -/
inductive Trend where
  | increasing
  | decreasing
  | stable
deriving DecidableEq, Repr

/-- From types/index.ts: log severity levels of a LogSignal. -/
inductive LogLevel where
  | error
  | warn
  | info
deriving DecidableEq, Repr

/-- From types/index.ts: the closed vocabulary of remediation action types. -/
inductive ActionType where
  | rollout_restart
  | scale_deployment
  | delete_pod
  | cleanup_logs
deriving DecidableEq, Repr

/-- From types/index.ts: risk levels of a RemediationAction. -/
inductive RiskLevel where
  | low
  | medium
  | high
deriving DecidableEq, Repr

/-- The numeric rank of a risk level, as displayed by the Settings slider
(Settings.tsx: 1 = Low, 2 = Medium, 3 = High). -/
def RiskLevel.rank : RiskLevel → Nat
  | .low => 1
  | .medium => 2
  | .high => 3

/-- From types/index.ts: MetricSignal. -/
structure MetricSignal where
  id : String
  name : String
  value : ℚ
  threshold : ℚ
  trend : Trend
  timestamp : Int
  query : String
deriving DecidableEq, Repr

/-- From types/index.ts: LogSignal. -/
structure LogSignal where
  id : String
  message : String
  level : LogLevel
  timestamp : Int
  pod : String
  count : Nat
deriving DecidableEq, Repr

/-- From types/index.ts: EventSignal. -/
structure EventSignal where
  id : String
  eventType : String
  reason : String
  message : String
  timestamp : Int
  resource : String
deriving DecidableEq, Repr

/-- From types/index.ts: the Signal tagged union. -/
inductive Signal where
  | metric (s : MetricSignal)
  | log (s : LogSignal)
  | event (s : EventSignal)
deriving DecidableEq, Repr

/-- From types/index.ts: one ranked suspected cause inside a
RootCauseAnalysis. -/
structure SuspectedCause where
  cause : String
  confidence : ℚ
  evidence : List String
deriving DecidableEq, Repr

/-- From types/index.ts: one entry of the RootCauseAnalysis timeline. -/
structure TimelineItem where
  timestamp : Int
  event : String
  type : SignalType
deriving DecidableEq, Repr

/-- From types/index.ts: RootCauseAnalysis; every field is optional in the
source, including the snake_case backend field names. -/
structure RootCauseAnalysis where
  summary : Option String := none
  suspectedCauses : Option (List SuspectedCause) := none
  timeline : Option (List TimelineItem) := none
  recommendedActions : Option (List String) := none
  rollbackGuidance : Option String := none
  generatedAt : Option Int := none
  root_cause : Option String := none
  confidence : Option ℚ := none
  evidence : Option (List String) := none
  contributing_factors : Option (List String) := none
  recommended_action : Option String := none
  rollback_guidance : Option String := none
  reasoning : Option String := none
deriving DecidableEq, Repr

/-- From types/index.ts: RemediationAction. The `parameters` map holds only
string values in every occurrence in the sources. -/
structure RemediationAction where
  id : String
  incidentId : String
  type : ActionType
  status : RemediationStatus
  description : String
  target : String
  parameters : List (String × String)
  riskLevel : RiskLevel
  requiresApproval : Bool
  blastRadius : String
  rollbackPlan : String
  createdAt : Int
  approvedAt : Option Int := none
  approvedBy : Option String := none
  executedAt : Option Int := none
  completedAt : Option Int := none
  result : Option String := none
deriving DecidableEq, Repr

/-- From types/index.ts: Incident. The `namespace` field is renamed
`namespace_` because `namespace` is a Lean keyword. -/
structure Incident where
  id : String
  title : String
  description : String
  status : IncidentStatus
  severity : IncidentSeverity
  confidence : ℚ
  detectedAt : Int
  updatedAt : Int
  resolvedAt : Option Int := none
  namespace_ : String
  service : String
  affectedPods : List String
  signals : List Signal
  correlationScore : ℚ
  rca : Option RootCauseAnalysis := none
  proposedRemediation : Option RemediationAction := none
  tags : List String
deriving DecidableEq, Repr

/-- From types/index.ts: status of one RemediationAttempt. -/
inductive AttemptStatus where
  | pending
  | executing
  | success
  | failed
deriving DecidableEq, Repr

/-- From types/index.ts: RemediationAttempt. -/
structure RemediationAttempt where
  id : String
  action : String
  target : String
  status : AttemptStatus
  executedAt : Int
  completedAt : Option Int := none
  result : Option String := none
  error : Option String := none
deriving DecidableEq, Repr

/-- From types/index.ts: status of an Issue. -/
inductive IssueStatus where
  | open
  | fixing
  | resolved
  | needs_attention
deriving DecidableEq, Repr

/-- From types/index.ts: Issue (the `incident` back-reference field is the
incident looked up by `incidentId`, left out of the embedded record). -/
structure Issue where
  id : String
  incidentId : String
  status : IssueStatus
  createdAt : Int
  updatedAt : Int
  remediationAttempts : List RemediationAttempt
  verified : Bool
  verificationMessage : Option String := none
deriving DecidableEq, Repr

/-- From mock-data.ts: the proposed remediation of incident `inc-001`.
`now` stands for `Date.now()`. -/
def rem001 (now : Int) : RemediationAction :=
  { id := "rem-001",
    incidentId := "inc-001",
    type := ActionType.rollout_restart,
    status := RemediationStatus.pending,
    description := "Rolling restart of payment-service deployment to clear memory leak",
    target := "deployment/payment-service",
    parameters := [("namespace", "production"), ("deployment", "payment-service")],
    riskLevel := RiskLevel.medium,
    requiresApproval := true,
    blastRadius := "2 pods, ~50 concurrent requests will be temporarily affected",
    rollbackPlan := "Automatic rollback if health checks fail after restart",
    createdAt := now - 1000 * 60 * 2 }

/-- From mock-data.ts: the proposed remediation of incident `inc-003`. -/
def rem003 (now : Int) : RemediationAction :=
  { id := "rem-003",
    incidentId := "inc-003",
    type := ActionType.cleanup_logs,
    status := RemediationStatus.executing,
    description := "Clean up old log files and compress archives",
    target := "node/worker-3",
    parameters := [("path", "/var/log"), ("olderThan", "7d")],
    riskLevel := RiskLevel.low,
    requiresApproval := false,
    blastRadius := "Minimal - only affects archived logs",
    rollbackPlan := "Logs are backed up before deletion",
    createdAt := now - 1000 * 60 * 5,
    approvedAt := some (now - 1000 * 60 * 4),
    approvedBy := some "system-auto",
    executedAt := some (now - 1000 * 30) }

/-- From mock-data.ts: incident `inc-001` (memory leak, pending approval). -/
def inc001 (now : Int) : Incident :=
  { id := "inc-001",
    title := "Memory Leak Detected in payment-service",
    description := "Continuous memory growth detected over 45 minutes with multiple OOMKill events",
    status := IncidentStatus.pending_approval,
    severity := IncidentSeverity.critical,
    confidence := 0.92,
    detectedAt := now - 1000 * 60 * 45,
    updatedAt := now - 1000 * 60 * 2,
    namespace_ := "production",
    service := "payment-service",
    affectedPods := ["payment-service-7d8f9c-abc12", "payment-service-7d8f9c-def34"],
    correlationScore := 0.89,
    tags := ["memory", "oom", "critical"],
    signals := [
      Signal.metric
        { id := "sig-m-001",
          name := "container_memory_usage_bytes",
          value := 3.8e9,
          threshold := 2.5e9,
          trend := Trend.increasing,
          timestamp := now - 1000 * 60 * 5,
          query := "container_memory_usage_bytes\x7bpod=~\"payment-service.*\"\x7d" },
      Signal.event
        { id := "sig-e-001",
          eventType := "Warning",
          reason := "OOMKilled",
          message := "Container payment-service exceeded memory limit",
          timestamp := now - 1000 * 60 * 8,
          resource := "payment-service-7d8f9c-abc12" },
      Signal.log
        { id := "sig-l-001",
          message := "java.lang.OutOfMemoryError: Java heap space",
          level := LogLevel.error,
          timestamp := now - 1000 * 60 * 10,
          pod := "payment-service-7d8f9c-abc12",
          count := 47 }],
    rca := some
      { summary := some "Payment service is experiencing a memory leak in the transaction processing module. Memory usage has increased linearly over 45 minutes, leading to OOMKill events.",
        suspectedCauses := some [
          { cause := "Memory leak in transaction caching layer",
            confidence := 0.87,
            evidence := [
              "Linear memory growth pattern over 45 minutes",
              "Multiple OOMKill events on 2 pods",
              "OutOfMemoryError in Java heap space",
              "No corresponding increase in request rate"] },
          { cause := "Unbounded cache growth without eviction policy",
            confidence := 0.72,
            evidence := [
              "Memory growth correlates with transaction volume",
              "No cache size limits configured",
              "JVM heap exhaustion pattern"] }],
        timeline := some [
          { timestamp := now - 1000 * 60 * 45,
            event := "Memory usage begins linear increase",
            type := SignalType.metric },
          { timestamp := now - 1000 * 60 * 15,
            event := "Memory usage exceeds 80% threshold",
            type := SignalType.metric },
          { timestamp := now - 1000 * 60 * 10,
            event := "First OutOfMemoryError logged",
            type := SignalType.log },
          { timestamp := now - 1000 * 60 * 8,
            event := "Pod payment-service-7d8f9c-abc12 OOMKilled",
            type := SignalType.event },
          { timestamp := now - 1000 * 60 * 3,
            event := "Pod payment-service-7d8f9c-def34 OOMKilled",
            type := SignalType.event }],
        recommendedActions := some [
          "Restart affected pods to clear memory",
          "Increase memory limits temporarily",
          "Enable heap dump on OOM for analysis",
          "Review and fix caching implementation"],
        rollbackGuidance := some "If restart fails to resolve, rollback to previous deployment version (v2.4.1) which did not exhibit this behavior",
        generatedAt := some (now - 1000 * 60 * 2) },
    proposedRemediation := some (rem001 now) }

/-- From mock-data.ts: incident `inc-002` (high API latency, analyzing). -/
def inc002 (now : Int) : Incident :=
  { id := "inc-002",
    title := "High API Latency in user-service",
    description := "P95 latency increased from 200ms to 2.5s over the last 20 minutes",
    status := IncidentStatus.analyzing,
    severity := IncidentSeverity.high,
    confidence := 0.78,
    detectedAt := now - 1000 * 60 * 20,
    updatedAt := now - 1000 * 60 * 1,
    namespace_ := "production",
    service := "user-service",
    affectedPods := ["user-service-6b7c8d-xyz89", "user-service-6b7c8d-pqr56"],
    correlationScore := 0.73,
    tags := ["latency", "performance"],
    signals := [
      Signal.metric
        { id := "sig-m-002",
          name := "http_request_duration_p95",
          value := 2500,
          threshold := 500,
          trend := Trend.increasing,
          timestamp := now - 1000 * 60 * 1,
          query := "histogram_quantile(0.95, http_request_duration_seconds\x7bservice=\"user-service\"\x7d)" },
      Signal.log
        { id := "sig-l-002",
          message := "Database connection pool exhausted, waiting for available connection",
          level := LogLevel.warn,
          timestamp := now - 1000 * 60 * 5,
          pod := "user-service-6b7c8d-xyz89",
          count := 234 }] }

/-- From mock-data.ts: incident `inc-003` (disk pressure, remediating). -/
def inc003 (now : Int) : Incident :=
  { id := "inc-003",
    title := "Disk Pressure on logging-collector",
    description := "Disk usage at 94% on logging node, affecting log collection",
    status := IncidentStatus.remediating,
    severity := IncidentSeverity.medium,
    confidence := 0.95,
    detectedAt := now - 1000 * 60 * 30,
    updatedAt := now - 1000 * 30,
    namespace_ := "monitoring",
    service := "logging-collector",
    affectedPods := ["logging-collector-0"],
    correlationScore := 0.91,
    tags := ["disk", "storage"],
    signals := [
      Signal.metric
        { id := "sig-m-003",
          name := "node_filesystem_avail_bytes",
          value := 6,
          threshold := 10,
          trend := Trend.decreasing,
          timestamp := now - 1000 * 60 * 1,
          query := "node_filesystem_avail_bytes\x7bmountpoint=\"/var/log\"\x7d" },
      Signal.event
        { id := "sig-e-003",
          eventType := "Warning",
          reason := "DiskPressure",
          message := "Node has disk pressure",
          timestamp := now - 1000 * 60 * 10,
          resource := "node/worker-3" }],
    proposedRemediation := some (rem003 now) }

/-- From mock-data.ts: incident `inc-004` (crash loop, resolved). -/
def inc004 (now : Int) : Incident :=
  { id := "inc-004",
    title := "Pod Crash Loop in recommendation-engine",
    description := "Pod continuously restarting every 2 minutes",
    status := IncidentStatus.resolved,
    severity := IncidentSeverity.high,
    confidence := 0.88,
    detectedAt := now - 1000 * 60 * 120,
    updatedAt := now - 1000 * 60 * 30,
    resolvedAt := some (now - 1000 * 60 * 30),
    namespace_ := "production",
    service := "recommendation-engine",
    affectedPods := ["recommendation-engine-5c6d7e-mno34"],
    correlationScore := 0.94,
    tags := ["crashloop", "stability"],
    signals := [
      Signal.event
        { id := "sig-e-004",
          eventType := "Warning",
          reason := "BackOff",
          message := "Back-off restarting failed container",
          timestamp := now - 1000 * 60 * 35,
          resource := "recommendation-engine-5c6d7e-mno34" },
      Signal.log
        { id := "sig-l-004",
          message := "Failed to connect to Redis: connection refused",
          level := LogLevel.error,
          timestamp := now - 1000 * 60 * 40,
          pod := "recommendation-engine-5c6d7e-mno34",
          count := 15 }] }

/-- From mock-data.ts: incident `inc-005` (false positive, rejected). -/
def inc005 (now : Int) : Incident :=
  { id := "inc-005",
    title := "False Positive: Transient CPU Spike",
    description := "Brief CPU spike detected but no supporting evidence",
    status := IncidentStatus.rejected,
    severity := IncidentSeverity.low,
    confidence := 0.34,
    detectedAt := now - 1000 * 60 * 180,
    updatedAt := now - 1000 * 60 * 175,
    namespace_ := "staging",
    service := "batch-processor",
    affectedPods := ["batch-processor-8e9f0g-rst78"],
    correlationScore := 0.21,
    tags := ["cpu", "false-positive"],
    signals := [
      Signal.metric
        { id := "sig-m-005",
          name := "container_cpu_usage",
          value := 85,
          threshold := 80,
          trend := Trend.stable,
          timestamp := now - 1000 * 60 * 180,
          query := "container_cpu_usage_seconds_total\x7bpod=~\"batch-processor.*\"\x7d" }] }

/-- From mock-data.ts: the exported `mockIncidents` array — the incident
store's contents (one incident in each lifecycle region). -/
def mockIncidents (now : Int) : List Incident :=
  [inc001 now, inc002 now, inc003 now, inc004 now, inc005 now]

/-- Whether an incident status is one of the three terminal states
(`resolved`, `escalated`, `rejected`) — the complement of the four
"active" statuses counted by Dashboard.tsx and App.tsx. -/
def IncidentStatus.isTerminal : IncidentStatus → Bool
  | .resolved => true
  | .escalated => true
  | .rejected => true
  | _ => false

/-- Modelled from the spec: the events of the incident state machine of
section 4.2 (the state machine itself runs in the backend, which is not
among the provided sources; only the `IncidentStatus` vocabulary is). -/
inductive IncidentEvent where
  | rcaAttached
  | remediationProposed (requiresApproval : Bool)
  | humanApprove
  | humanReject
  | executorSuccessVerified
  | executorFailureExhausted
  | confidenceTimeout
deriving DecidableEq, Repr

/-- Modelled from the spec: the transition table of section 4.2. Any pair
not in the table is an invalid transition, reported as an error and not
applied, hence `none`. -/
def incidentStep : IncidentStatus → IncidentEvent → Option IncidentStatus
  | .detected, .rcaAttached => some .analyzing
  | .analyzing, .remediationProposed false => some .remediating
  | .analyzing, .remediationProposed true => some .pending_approval
  | .pending_approval, .humanApprove => some .remediating
  | .pending_approval, .humanReject => some .escalated
  | .remediating, .executorSuccessVerified => some .resolved
  | .remediating, .executorFailureExhausted => some .escalated
  | .analyzing, .confidenceTimeout => some .rejected
  | _, _ => none

/-- Modelled from the spec: `detected` is the only initial state of the
incident state machine. -/
def initialStatus : IncidentStatus := IncidentStatus.detected

/-- Modelled from the spec: the sequence of statuses visited while
processing a list of events from a starting status; an invalid
transition is a no-op (section 4.2). -/
def incidentRun : IncidentStatus → List IncidentEvent → List IncidentStatus
  | s, [] => [s]
  | s, e :: es => s :: incidentRun ((incidentStep s e).getD s) es

/-- Modelled from the spec: the Policy Gate decision vocabulary of
section 4.3. -/
inductive Decision where
  | AutoApprove
  | RequireApproval
  | Deny
deriving DecidableEq, Repr

/-- Modelled from the spec: the policy configuration consumed by the
Policy Gate — the per-namespace action allowlist, `maxPodsAffected`,
the cooldown window and `requireApprovalThreshold`, matching the knobs
of the Settings screen (Settings.tsx). -/
structure PolicyConfig where
  allowlist : List (String × List ActionType)
  maxPodsAffected : Nat
  cooldownSeconds : Int
  requireApprovalThreshold : RiskLevel
deriving DecidableEq, Repr

/-- Modelled from the spec: the incident context the Policy Gate sees —
target namespace, estimated pods affected, the completed remediation
attempts as `(target, action type, completion time)` triples, and the
current time. -/
structure IncidentContext where
  namespace_ : String
  podsAffected : Nat
  completedAttempts : List (String × ActionType × Int)
  now : Int
deriving DecidableEq, Repr

/-- Modelled from the spec: the action types allowed in a namespace under
a configuration (empty when the namespace has no allowlist entry),
rule 1 of section 4.3. -/
def nsAllowed (cfg : PolicyConfig) (ns : String) : List ActionType :=
  (cfg.allowlist.lookup ns).getD []

/-- Modelled from the spec: rule 3 of section 4.3 — a completed attempt on
the same `(target, action type)` within the cooldown window. -/
def cooldownHit (action : RemediationAction) (ctx : IncidentContext)
    (cfg : PolicyConfig) : Bool :=
  ctx.completedAttempts.any (fun p =>
    p.1 == action.target && p.2.1 == action.type
      && decide (ctx.now - p.2.2 < cfg.cooldownSeconds))

/-- Modelled from the spec: the Policy Gate,
`evaluate(action, incidentContext, policyConfig)` of section 4.3; the
rules are applied in order, first match wins. -/
def evaluate (action : RemediationAction) (ctx : IncidentContext)
    (cfg : PolicyConfig) : Decision :=
  if ¬ (nsAllowed cfg ctx.namespace_).contains action.type then .Deny
  else if cfg.maxPodsAffected < ctx.podsAffected then .Deny
  else if cooldownHit action ctx cfg then .Deny
  else if cfg.requireApprovalThreshold.rank ≤ action.riskLevel.rank then .RequireApproval
  else .AutoApprove

/-- Modelled from the spec: `requiresApproval` is derived by the Policy
Gate, not set by the proposer — true exactly when the gate answers
`RequireApproval`. -/
def deriveRequiresApproval (action : RemediationAction) (ctx : IncidentContext)
    (cfg : PolicyConfig) : Bool :=
  evaluate action ctx cfg == Decision.RequireApproval

/-- Modelled from the spec: the outcome the cluster-mutation backend
reports for one execution try (section 6: success, or a typed
`retryable` vs `fatal` error). -/
inductive ExecOutcome where
  | success
  | retryable
  | fatal
deriving DecidableEq, Repr

/-- Modelled from the spec: the attempt record the executor creates for
try number `i` (a fresh record per try, never a mutation of an earlier
one, section 4.4). -/
def mkAttempt (actionName target : String) (i : Nat) (t : Int)
    (st : AttemptStatus) (err : Option String) : RemediationAttempt :=
  { id := "attempt-" ++ toString i,
    action := actionName,
    target := target,
    status := st,
    executedAt := t,
    completedAt := some t,
    result := none,
    error := err }

/-- Modelled from the spec: the Remediation Executor retry loop of
section 4.4. `backend i` is the outcome the cluster-mutation backend
reports for try `i`; the second argument is the number of tries still
allowed (`maxRetries` at the top call). Returns the accumulated attempt
history in execution order and the resulting incident status: `resolved`
on success, `escalated` on a fatal error or on retry exhaustion. -/
def runExecutor (backend : Nat → ExecOutcome) (actionName target : String)
    (t : Int) : Nat → Nat → List RemediationAttempt × IncidentStatus
  | _, 0 => ([], IncidentStatus.escalated)
  | i, fuel + 1 =>
    match backend i with
    | .success =>
      ([mkAttempt actionName target i t AttemptStatus.success none],
        IncidentStatus.resolved)
    | .fatal =>
      ([mkAttempt actionName target i t AttemptStatus.failed (some "fatal error")],
        IncidentStatus.escalated)
    | .retryable =>
      let rest := runExecutor backend actionName target t (i + 1) fuel
      (mkAttempt actionName target i t AttemptStatus.failed (some "retryable error")
          :: rest.1,
        rest.2)

/-- Modelled from the spec: the operations on an Issue of section 4.5 —
an execute request, a retry request, and the two outcomes of the
verification loop, each carrying the data the operation records. -/
inductive IssueOp where
  | executeReq (a : RemediationAttempt)
  | retryReq (a : RemediationAttempt)
  | verifySuccess (msg : String) (t : Int)
  | verifyTimeout (msg : String) (t : Int)
deriving DecidableEq, Repr

/-- Modelled from the spec: the Issue Tracker step of section 4.5.
Execute applies only to an `open` issue and retry only to a
`needs_attention` issue, each appending a fresh attempt and moving to
`fixing`; verification success resolves a `fixing` issue with
`verified = true`, verification timeout (or executor failure) moves it
to `needs_attention`. Every other combination is a no-op. -/
def issueStep (iss : Issue) (op : IssueOp) : Issue :=
  match op with
  | .executeReq a =>
    if iss.status = IssueStatus.open then
      { iss with status := IssueStatus.fixing,
                 remediationAttempts := iss.remediationAttempts ++ [a] }
    else iss
  | .retryReq a =>
    if iss.status = IssueStatus.needs_attention then
      { iss with status := IssueStatus.fixing,
                 remediationAttempts := iss.remediationAttempts ++ [a] }
    else iss
  | .verifySuccess msg t =>
    if iss.status = IssueStatus.fixing then
      { iss with status := IssueStatus.resolved,
                 verified := true,
                 verificationMessage := some msg,
                 updatedAt := t }
    else iss
  | .verifyTimeout msg t =>
    if iss.status = IssueStatus.fixing then
      { iss with status := IssueStatus.needs_attention,
                 verificationMessage := some msg,
                 updatedAt := t }
    else iss

/-- From IssueDetail.tsx: the Execute Remediation button is rendered
exactly when the issue status is `open`. -/
def executeButtonShown (s : IssueStatus) : Bool :=
  s == IssueStatus.open

/-- From IssueDetail.tsx: the Retry Remediation button is rendered
exactly when the issue status is `needs_attention`. -/
def retryButtonShown (s : IssueStatus) : Bool :=
  s == IssueStatus.needs_attention

/-- From lib/api.ts: the response shape of the approve and reject
endpoints (`action_result` is an arbitrary payload in the source,
embedded as an optional string). -/
structure ApprovalResponse where
  success : Bool
  message : String
  action_result : Option String := none
deriving DecidableEq, Repr

/-- From lib/api.ts: the response shape of the issue execute and retry
endpoints (`issue` is the updated issue; `any` in the source, embedded
as an optional Issue). -/
structure IssueExecuteResponse where
  success : Bool
  message : String
  issue : Option Issue := none
deriving DecidableEq, Repr

/-- Modelled from the spec: the backend handler of the operator approve
command (sections 6 and 7): succeeds only on an incident that is still
`pending_approval`, otherwise reports failure with a human-readable
message ("no longer pending"). -/
def approveCommand (incs : List Incident) (id : String) : ApprovalResponse :=
  match incs.find? (fun i => i.id == id) with
  | none => { success := false, message := "Incident not found" }
  | some inc =>
    if inc.status == IncidentStatus.pending_approval then
      { success := true,
        message := "Remediation approved; execution triggered",
        action_result := some "executing" }
    else
      { success := false, message := "Incident is no longer pending approval" }

/-- Modelled from the spec: the backend handler of the operator reject
command (sections 6 and 7). -/
def rejectCommand (incs : List Incident) (id : String) : ApprovalResponse :=
  match incs.find? (fun i => i.id == id) with
  | none => { success := false, message := "Incident not found" }
  | some inc =>
    if inc.status == IncidentStatus.pending_approval then
      { success := true,
        message := "Remediation rejected; incident escalated" }
    else
      { success := false, message := "Incident is no longer pending approval" }

/-- Modelled from the spec: the backend handler of the issue execute
command (sections 4.5, 6 and 7); `att` is the fresh attempt record the
execution creates. -/
def executeCommand (issues : List Issue) (id : String)
    (att : RemediationAttempt) : IssueExecuteResponse :=
  match issues.find? (fun i => i.id == id) with
  | none => { success := false, message := "Issue not found" }
  | some iss =>
    if iss.status == IssueStatus.open then
      { success := true,
        message := "Remediation started",
        issue := some (issueStep iss (IssueOp.executeReq att)) }
    else
      { success := false,
        message := "Issue is not open",
        issue := some iss }

/-- Modelled from the spec: the backend handler of the issue retry
command (sections 4.5, 6 and 7). -/
def retryCommand (issues : List Issue) (id : String)
    (att : RemediationAttempt) : IssueExecuteResponse :=
  match issues.find? (fun i => i.id == id) with
  | none => { success := false, message := "Issue not found" }
  | some iss =>
    if iss.status == IssueStatus.needs_attention then
      { success := true,
        message := "Retry started",
        issue := some (issueStep iss (IssueOp.retryReq att)) }
    else
      { success := false,
        message := "Issue does not need attention",
        issue := some iss }

/-- From Dashboard.tsx: the statuses an incident is counted under
"Active Incidents". -/
def activeStatuses : List IncidentStatus :=
  [IncidentStatus.detected, IncidentStatus.analyzing,
    IncidentStatus.pending_approval, IncidentStatus.remediating]

/-- From Dashboard.tsx: `activeCount`, the number of incidents whose
status lies in `activeStatuses`. -/
def activeCount (incidents : List Incident) : Nat :=
  (incidents.filter (fun i => activeStatuses.contains i.status)).length

/-- From App.tsx (AppContent): `activeIncidents`, the sidebar's count,
computed with the same four-status filter. -/
def activeIncidents (incidents : List Incident) : Nat :=
  (incidents.filter (fun i => activeStatuses.contains i.status)).length

/-- A JavaScript number: a rational, NaN, or one of the two infinities.
Only the operations `generateMetricTimeSeries` performs are defined,
each following IEEE-754 / JavaScript semantics (`0/0 = NaN`,
`x/0 = ±Infinity` for `x ≠ 0`, NaN propagates, `Math.max` returns NaN
when an argument is NaN). -/
inductive JsNum where
  | nan
  | posInf
  | negInf
  | val (q : ℚ)
deriving DecidableEq, Repr

/-- JavaScript unary minus. -/
def JsNum.neg : JsNum → JsNum
  | nan => nan
  | posInf => negInf
  | negInf => posInf
  | val q => val (-q)

/-- JavaScript addition. -/
def JsNum.add : JsNum → JsNum → JsNum
  | nan, _ => nan
  | _, nan => nan
  | posInf, negInf => nan
  | negInf, posInf => nan
  | posInf, _ => posInf
  | _, posInf => posInf
  | negInf, _ => negInf
  | _, negInf => negInf
  | val a, val b => val (a + b)

/-- JavaScript multiplication. -/
def JsNum.mul : JsNum → JsNum → JsNum
  | nan, _ => nan
  | _, nan => nan
  | posInf, posInf => posInf
  | posInf, negInf => negInf
  | negInf, posInf => negInf
  | negInf, negInf => posInf
  | posInf, val q => if q = 0 then nan else if 0 < q then posInf else negInf
  | val q, posInf => if q = 0 then nan else if 0 < q then posInf else negInf
  | negInf, val q => if q = 0 then nan else if 0 < q then negInf else posInf
  | val q, negInf => if q = 0 then nan else if 0 < q then negInf else posInf
  | val a, val b => val (a * b)

/-- JavaScript division (negative zero identified with zero). -/
def JsNum.div : JsNum → JsNum → JsNum
  | nan, _ => nan
  | _, nan => nan
  | posInf, posInf => nan
  | posInf, negInf => nan
  | negInf, posInf => nan
  | negInf, negInf => nan
  | posInf, val q => if 0 ≤ q then posInf else negInf
  | negInf, val q => if 0 ≤ q then negInf else posInf
  | val _, posInf => val 0
  | val _, negInf => val 0
  | val a, val b =>
    if b = 0 then (if a = 0 then nan else if 0 < a then posInf else negInf)
    else val (a / b)

/-- JavaScript `Math.max` of two numbers. -/
def JsNum.max : JsNum → JsNum → JsNum
  | nan, _ => nan
  | _, nan => nan
  | posInf, _ => posInf
  | _, posInf => posInf
  | negInf, b => b
  | a, negInf => a
  | val a, val b => val (if a ≤ b then b else a)

/-- From types/index.ts: TelemetryMetric — one chart sample (the optional
`labels` field is never set by `generateMetricTimeSeries` and is left
out). -/
structure TelemetryMetric where
  timestamp : Int
  value : JsNum
deriving DecidableEq, Repr

/-- From mock-data.ts: the body of one iteration of the
`generateMetricTimeSeries` loop at loop counter `i`:
`timestamp = now - i * 60 * 1000`;
`trendValue = ((duration - i) / duration) * 30` when increasing,
`-((duration - i) / duration) * 20` when decreasing, `0` when stable;
`noise = (Math.random() - 0.5) * volatility` with the random draw of
this iteration supplied as `rand (duration - i)`;
`value = Math.max(0, baseline + trendValue + noise)`. -/
def genEntry (now : Int) (duration : Nat) (baseline volatility : ℚ)
    (trend : Trend) (rand : Nat → ℚ) (i : Nat) : TelemetryMetric :=
  let trendValue : JsNum :=
    match trend with
    | Trend.increasing =>
      JsNum.mul (JsNum.div (JsNum.val ((duration - i : Nat) : ℚ)) (JsNum.val (duration : ℚ)))
        (JsNum.val 30)
    | Trend.decreasing =>
      JsNum.mul (JsNum.neg (JsNum.div (JsNum.val ((duration - i : Nat) : ℚ)) (JsNum.val (duration : ℚ))))
        (JsNum.val 20)
    | Trend.stable => JsNum.val 0
  let noise : ℚ := (rand (duration - i) - 0.5) * volatility
  { timestamp := now - (i : Int) * 60 * 1000,
    value := JsNum.max (JsNum.val 0)
      (JsNum.add (JsNum.add (JsNum.val baseline) trendValue) (JsNum.val noise)) }

/-- From mock-data.ts: the loop `for (let i = duration; i >= 0; i--)`,
unrolled by structural recursion on the loop counter — the entries for
`i = n, n - 1, …, 0` in push order. -/
def genLoop (now : Int) (duration : Nat) (baseline volatility : ℚ)
    (trend : Trend) (rand : Nat → ℚ) : Nat → List TelemetryMetric
  | 0 => [genEntry now duration baseline volatility trend rand 0]
  | n + 1 =>
    genEntry now duration baseline volatility trend rand (n + 1)
      :: genLoop now duration baseline volatility trend rand n

/-- From mock-data.ts: `generateMetricTimeSeries`, with `Math.random()`
supplied as the stream `rand` (the k-th loop iteration draws `rand k`)
and `Date.now()` as `now`. -/
def generateMetricTimeSeries (rand : Nat → ℚ) (now : Int) (duration : Nat)
    (baseline volatility : ℚ) (trend : Trend) : List TelemetryMetric :=
  genLoop now duration baseline volatility trend rand duration

/-- A JSON value, as parsed by `response.json()`. -/
inductive Json where
  | null
  | bool (b : Bool)
  | num (q : ℚ)
  | str (s : String)
  | arr (xs : List Json)
  | obj (fields : List (String × Json))

/-- The `detail` property of a parsed error body, when it is a string
(`error.detail` in apiFetch; `undefined` on any other shape). -/
def Json.detailString : Json → Option String
  | .obj fields =>
    match fields.lookup "detail" with
    | some (.str s) => some s
    | _ => none
  | _ => none

/-- The HTTP response as `apiFetch` observes it: the `ok` flag, the
numeric status, `statusText`, and the result of `response.json()`
(`none` when the body does not parse, in which case `response.json()`
rejects). -/
structure HttpResponse where
  ok : Bool
  status : Nat
  statusText : String
  jsonBody : Option Json

/-- From lib/api.ts: the `apiFetch` wrapper. On a non-ok response it
parses the body (falling back to `\x7b detail: statusText \x7d` when
parsing fails) and throws an Error whose message is `error.detail` when
that is a truthy string, else `API Error: <status>`; on an ok response
it returns the parsed JSON body (a rejected `response.json()` on an ok
response propagates as an exception). Exceptions are embedded as
`Except.error`. -/
def apiFetch (resp : HttpResponse) : Except String Json :=
  if resp.ok then
    match resp.jsonBody with
    | some j => Except.ok j
    | none => Except.error "Unexpected end of JSON input"
  else
    let error : Json :=
      match resp.jsonBody with
      | some j => j
      | none => Json.obj [("detail", Json.str resp.statusText)]
    match error.detailString with
    | some d =>
      if d = "" then Except.error ("API Error: " ++ toString resp.status)
      else Except.error d
    | none => Except.error ("API Error: " ++ toString resp.status)

/-- A concrete open issue tracking incident `inc-003`, used to exercise
the issue-tracker operations on explicit inputs. -/
def issueOpen : Issue :=
  { id := "issue-1",
    incidentId := "inc-003",
    status := IssueStatus.open,
    createdAt := 0,
    updatedAt := 0,
    remediationAttempts := [],
    verified := false }

/-- A concrete policy gate context for the monitoring namespace. -/
def ctxMonitoring : IncidentContext :=
  { namespace_ := "monitoring",
    podsAffected := 1,
    completedAttempts := [],
    now := 0 }

/-- A concrete policy configuration with `requireApprovalThreshold`
set to `medium`. -/
def cfgMedium : PolicyConfig :=
  { allowlist := [("monitoring", [ActionType.cleanup_logs, ActionType.rollout_restart])],
    maxPodsAffected := 5,
    cooldownSeconds := 300,
    requireApprovalThreshold := RiskLevel.medium }

/-- A concrete failed HTTP response carrying a detail message. -/
def respBadRequest : HttpResponse :=
  { ok := false,
    status := 500,
    statusText := "Internal Server Error",
    jsonBody := some (Json.obj [("detail", Json.str "boom")]) }

/-- Claim C1: for every incident in the store, the `resolvedAt` timestamp
is set if and only if the incident's status is `resolved`. -/
theorem resolvedAt_iff_resolved (now : Int) :
    ∀ inc ∈ mockIncidents now,
      inc.resolvedAt.isSome = true ↔ inc.status = IncidentStatus.resolved := by
  intro inc h
  simp only [mockIncidents, List.mem_cons, List.not_mem_nil, or_false] at h
  rcases h with rfl | rfl | rfl | rfl | rfl <;>
    simp [inc001, inc002, inc003, inc004, inc005]

theorem resolvedAt_iff_resolved_witness :
    (inc004 0).resolvedAt.isSome = true ↔ (inc004 0).status = IncidentStatus.resolved :=
  resolvedAt_iff_resolved 0 (inc004 0) (by simp [mockIncidents])

/-- Claim C2: the terminal statuses `resolved`, `escalated`, `rejected` are
absorbing — no transition of the incident state machine applies to an
incident in one of them — and `detected` is the only initial state. -/
theorem terminal_absorbing (s : IncidentStatus) (e : IncidentEvent)
    (h : s.isTerminal = true) :
    incidentStep s e = none ∧ initialStatus = IncidentStatus.detected := by
  refine ⟨?_, rfl⟩
  cases s <;> (try (cases e <;> rfl)) <;> simp [IncidentStatus.isTerminal] at h

theorem terminal_absorbing_witness :
    IncidentStatus.resolved.isTerminal = true ∧
      (incidentStep IncidentStatus.resolved IncidentEvent.rcaAttached = none ∧
        initialStatus = IncidentStatus.detected) :=
  ⟨by decide, terminal_absorbing IncidentStatus.resolved IncidentEvent.rcaAttached (by decide)⟩

/-- Claim C5: the attempt history of an Issue is append-only — every
operation of the issue tracker either leaves the recorded attempts
unchanged or appends one new record at the end; none is removed or
mutated in place. -/
theorem attempts_append_only (iss : Issue) (op : IssueOp) :
    (issueStep iss op).remediationAttempts = iss.remediationAttempts ∨
      ∃ a, (issueStep iss op).remediationAttempts = iss.remediationAttempts ++ [a] := by
  cases op with
  | executeReq a =>
    by_cases h : iss.status = IssueStatus.open
    · exact Or.inr ⟨a, by simp [issueStep, h]⟩
    · exact Or.inl (by simp [issueStep, h])
  | retryReq a =>
    by_cases h : iss.status = IssueStatus.needs_attention
    · exact Or.inr ⟨a, by simp [issueStep, h]⟩
    · exact Or.inl (by simp [issueStep, h])
  | verifySuccess msg t =>
    refine Or.inl ?_
    by_cases h : iss.status = IssueStatus.fixing <;> simp [issueStep, h]
  | verifyTimeout msg t =>
    refine Or.inl ?_
    by_cases h : iss.status = IssueStatus.fixing <;> simp [issueStep, h]

theorem attempts_append_only_witness :
    (issueStep issueOpen (IssueOp.executeReq
          (mkAttempt "cleanup_logs" "node/worker-3" 0 0 AttemptStatus.pending none))).remediationAttempts
        = issueOpen.remediationAttempts ∨
      ∃ a, (issueStep issueOpen (IssueOp.executeReq
          (mkAttempt "cleanup_logs" "node/worker-3" 0 0 AttemptStatus.pending none))).remediationAttempts
        = issueOpen.remediationAttempts ++ [a] :=
  attempts_append_only issueOpen
    (IssueOp.executeReq (mkAttempt "cleanup_logs" "node/worker-3" 0 0 AttemptStatus.pending none))

/-- Claim C6: the execute command is offered exactly for an `open` issue
and moves it to `fixing`; the retry command is offered exactly for a
`needs_attention` issue and returns it to `fixing`; neither applies to
an issue in `fixing` or `resolved` (or any other non-matching status),
where it is a no-op. -/
theorem issue_command_guards (iss : Issue) (a : RemediationAttempt) :
    (executeButtonShown iss.status = true ↔ iss.status = IssueStatus.open) ∧
      (retryButtonShown iss.status = true ↔ iss.status = IssueStatus.needs_attention) ∧
      (iss.status = IssueStatus.open →
        (issueStep iss (IssueOp.executeReq a)).status = IssueStatus.fixing) ∧
      (iss.status = IssueStatus.needs_attention →
        (issueStep iss (IssueOp.retryReq a)).status = IssueStatus.fixing) ∧
      (iss.status ≠ IssueStatus.open → issueStep iss (IssueOp.executeReq a) = iss) ∧
      (iss.status ≠ IssueStatus.needs_attention → issueStep iss (IssueOp.retryReq a) = iss) := by
  refine ⟨?_, ?_, ?_, ?_, ?_, ?_⟩
  · simp [executeButtonShown]
  · simp [retryButtonShown]
  · intro h; simp [issueStep, h]
  · intro h; simp [issueStep, h]
  · intro h; simp [issueStep, h]
  · intro h; simp [issueStep, h]

theorem issue_command_guards_witness :
    (issueStep issueOpen
        (IssueOp.executeReq (mkAttempt "cleanup_logs" "node/worker-3" 0 0 AttemptStatus.pending none))).status
      = IssueStatus.fixing :=
  (issue_command_guards issueOpen
    (mkAttempt "cleanup_logs" "node/worker-3" 0 0 AttemptStatus.pending none)).2.2.1 rfl

/-- Claim C7: every operator command — approve, reject, execute, retry —
returns a structured result with a Boolean `success` field and a string
`message` field (by the `ApprovalResponse` and `IssueExecuteResponse`
shapes), and the message is a nonempty human-readable string on both
the success and the failure path of every command. -/
theorem commands_structured_result (incs : List Incident) (issues : List Issue)
    (incId issId : String) (att : RemediationAttempt) :
    (approveCommand incs incId).message ≠ "" ∧
      (rejectCommand incs incId).message ≠ "" ∧
      (executeCommand issues issId att).message ≠ "" ∧
      (retryCommand issues issId att).message ≠ "" := by
  refine ⟨?_, ?_, ?_, ?_⟩
  · rw [approveCommand]
    cases incs.find? (fun i => i.id == incId) with
    | none => decide
    | some inc => dsimp only; split <;> decide
  · rw [rejectCommand]
    cases incs.find? (fun i => i.id == incId) with
    | none => decide
    | some inc => dsimp only; split <;> decide
  · rw [executeCommand]
    cases issues.find? (fun i => i.id == issId) with
    | none => simp
    | some iss => dsimp only; split <;> simp
  · rw [retryCommand]
    cases issues.find? (fun i => i.id == issId) with
    | none => simp
    | some iss => dsimp only; split <;> simp

theorem commands_structured_result_witness :
    (approveCommand (mockIncidents 0) "inc-001").message ≠ "" ∧
      (rejectCommand (mockIncidents 0) "inc-001").message ≠ "" ∧
      (executeCommand [issueOpen] "issue-1"
          (mkAttempt "cleanup_logs" "node/worker-3" 0 0 AttemptStatus.pending none)).message ≠ "" ∧
      (retryCommand [issueOpen] "issue-1"
          (mkAttempt "cleanup_logs" "node/worker-3" 0 0 AttemptStatus.pending none)).message ≠ "" :=
  commands_structured_result (mockIncidents 0) [issueOpen] "inc-001" "issue-1"
    (mkAttempt "cleanup_logs" "node/worker-3" 0 0 AttemptStatus.pending none)

/-- Claim C8: the dashboard's active-incident count (and the sidebar's,
computed with the same filter) counts exactly the incidents whose status
is one of `detected`, `analyzing`, `pending_approval`, `remediating` —
equivalently, the incidents whose status is not terminal. -/
theorem active_count_spec (incidents : List Incident) :
    activeCount incidents
        = (incidents.filter (fun i => ! i.status.isTerminal)).length ∧
      activeIncidents incidents = activeCount incidents := by
  constructor
  · unfold activeCount
    congr 1
    apply List.filter_congr
    intro i _
    cases h : i.status <;> decide
  · rfl

/-- Claim C3: under a configuration whose `requireApprovalThreshold` is
`medium`, a low-risk action that passes the allowlist, blast-radius and
cooldown rules is auto-approved with derived `requiresApproval = false`,
and the owning incident runs detected → analyzing → remediating without
ever entering `pending_approval`; an action whose risk level is at or
above the threshold (passing the same deny rules) gets
`RequireApproval` instead. -/
theorem policy_gate_low_risk (action action2 : RemediationAction)
    (ctx : IncidentContext) (cfg : PolicyConfig)
    (hrisk : action.riskLevel = RiskLevel.low)
    (hthr : cfg.requireApprovalThreshold = RiskLevel.medium)
    (hallow : (nsAllowed cfg ctx.namespace_).contains action.type = true)
    (hblast : ctx.podsAffected ≤ cfg.maxPodsAffected)
    (hcool : cooldownHit action ctx cfg = false)
    (hallow2 : (nsAllowed cfg ctx.namespace_).contains action2.type = true)
    (hcool2 : cooldownHit action2 ctx cfg = false)
    (hrisk2 : cfg.requireApprovalThreshold.rank ≤ action2.riskLevel.rank) :
    evaluate action ctx cfg = Decision.AutoApprove ∧
      deriveRequiresApproval action ctx cfg = false ∧
      incidentRun IncidentStatus.detected
          [IncidentEvent.rcaAttached,
            IncidentEvent.remediationProposed (deriveRequiresApproval action ctx cfg)]
        = [IncidentStatus.detected, IncidentStatus.analyzing, IncidentStatus.remediating] ∧
      IncidentStatus.pending_approval ∉ incidentRun IncidentStatus.detected
          [IncidentEvent.rcaAttached,
            IncidentEvent.remediationProposed (deriveRequiresApproval action ctx cfg)] ∧
      evaluate action2 ctx cfg = Decision.RequireApproval := by
  have hnotlt : ¬ (cfg.maxPodsAffected < ctx.podsAffected) := Nat.not_lt.mpr hblast
  have hallowm : action.type ∈ nsAllowed cfg ctx.namespace_ := by simpa using hallow
  have hallowm2 : action2.type ∈ nsAllowed cfg ctx.namespace_ := by simpa using hallow2
  have heval : evaluate action ctx cfg = Decision.AutoApprove := by
    rw [evaluate, hrisk, hthr]
    simp [hallowm, hnotlt, hcool, RiskLevel.rank]
  have hreq : deriveRequiresApproval action ctx cfg = false := by
    simp [deriveRequiresApproval, heval]
  have heval2 : evaluate action2 ctx cfg = Decision.RequireApproval := by
    rw [evaluate]
    simp [hallowm2, hnotlt, hcool2, hrisk2]
  refine ⟨heval, hreq, ?_, ?_, heval2⟩
  · rw [hreq]; rfl
  · rw [hreq]; decide

theorem policy_gate_low_risk_witness :
    evaluate (rem003 0) ctxMonitoring cfgMedium = Decision.AutoApprove ∧
      deriveRequiresApproval (rem003 0) ctxMonitoring cfgMedium = false ∧
      incidentRun IncidentStatus.detected
          [IncidentEvent.rcaAttached,
            IncidentEvent.remediationProposed
              (deriveRequiresApproval (rem003 0) ctxMonitoring cfgMedium)]
        = [IncidentStatus.detected, IncidentStatus.analyzing, IncidentStatus.remediating] ∧
      IncidentStatus.pending_approval ∉ incidentRun IncidentStatus.detected
          [IncidentEvent.rcaAttached,
            IncidentEvent.remediationProposed
              (deriveRequiresApproval (rem003 0) ctxMonitoring cfgMedium)] ∧
      evaluate (rem001 0) ctxMonitoring cfgMedium = Decision.RequireApproval :=
  policy_gate_low_risk (rem003 0) (rem001 0) ctxMonitoring cfgMedium
    (by decide) (by decide) (by decide) (by decide) (by decide)
    (by decide) (by decide) (by decide)

/-- With a backend that always reports a retryable failure, the executor
with starting try `i` and `fuel` tries left records one failed attempt
per try and ends escalated. -/
theorem runExecutor_all_retryable (backend : Nat → ExecOutcome)
    (a t : String) (tm : Int) (hb : ∀ n, backend n = ExecOutcome.retryable) :
    ∀ fuel i, runExecutor backend a t tm i fuel
      = ((List.range fuel).map
            (fun j => mkAttempt a t (i + j) tm AttemptStatus.failed (some "retryable error")),
          IncidentStatus.escalated) := by
  intro fuel
  induction fuel with
  | zero => intro i; simp [runExecutor]
  | succ k ih =>
    intro i
    rw [runExecutor, hb i]
    simp only [ih (i + 1), List.range_succ_eq_map, List.map_cons, List.map_map]
    refine congrArg (fun l => (_ :: l, IncidentStatus.escalated)) ?_
    apply List.map_congr_left
    intro j _
    simp [Function.comp, Nat.add_comm, Nat.add_assoc, Nat.add_left_comm]

/-- Claim C4: when the backend reports a retryable failure on every try
and `maxRetries = 3`, the incident ends `escalated`, the history holds
exactly 3 attempt records, all `failed`, with pairwise distinct ids
(each retry creates a new record), and each extra unit of retry budget
extends the previous history rather than rewriting it. -/
theorem executor_retry_exhaustion (backend : Nat → ExecOutcome)
    (a t : String) (tm : Int) (hb : ∀ n, backend n = ExecOutcome.retryable) :
    (runExecutor backend a t tm 0 3).2 = IncidentStatus.escalated ∧
      (runExecutor backend a t tm 0 3).1.length = 3 ∧
      (∀ att ∈ (runExecutor backend a t tm 0 3).1, att.status = AttemptStatus.failed) ∧
      ((runExecutor backend a t tm 0 3).1.map (fun r => r.id)).Nodup ∧
      (∀ k, (runExecutor backend a t tm 0 k).1 <+: (runExecutor backend a t tm 0 (k + 1)).1) := by
  have hrun := runExecutor_all_retryable backend a t tm hb
  refine ⟨?_, ?_, ?_, ?_, ?_⟩
  · rw [hrun 3 0]
  · rw [hrun 3 0]; rfl
  · rw [hrun 3 0]
    intro att hmem
    simp only [List.mem_map] at hmem
    obtain ⟨j, _, rfl⟩ := hmem
    rfl
  · rw [hrun 3 0]
    simp [List.range_succ, mkAttempt]
    decide
  · intro k
    rw [hrun k 0, hrun (k + 1) 0]
    simp only [List.range_succ, List.map_append]
    exact List.prefix_append _ _

theorem executor_retry_exhaustion_witness :
    (runExecutor (fun _ => ExecOutcome.retryable) "cleanup_logs" "node/worker-3" 0 0 3).2
        = IncidentStatus.escalated ∧
      (runExecutor (fun _ => ExecOutcome.retryable) "cleanup_logs" "node/worker-3" 0 0 3).1.length = 3 ∧
      (∀ att ∈ (runExecutor (fun _ => ExecOutcome.retryable) "cleanup_logs" "node/worker-3" 0 0 3).1,
        att.status = AttemptStatus.failed) ∧
      ((runExecutor (fun _ => ExecOutcome.retryable) "cleanup_logs" "node/worker-3" 0 0 3).1.map
          (fun r => r.id)).Nodup ∧
      (∀ k, (runExecutor (fun _ => ExecOutcome.retryable) "cleanup_logs" "node/worker-3" 0 0 k).1
        <+: (runExecutor (fun _ => ExecOutcome.retryable) "cleanup_logs" "node/worker-3" 0 0 (k + 1)).1) :=
  executor_retry_exhaustion (fun _ => ExecOutcome.retryable) "cleanup_logs" "node/worker-3" 0
    (fun _ => rfl)

theorem active_count_spec_witness :
    activeCount (mockIncidents 0)
        = ((mockIncidents 0).filter (fun i => ! i.status.isTerminal)).length ∧
      activeIncidents (mockIncidents 0) = activeCount (mockIncidents 0) :=
  active_count_spec (mockIncidents 0)

/-- The timestamp produced at loop counter `i`. -/
theorem genEntry_timestamp (now : Int) (d : Nat) (b v : ℚ) (tr : Trend)
    (r : Nat → ℚ) (i : Nat) :
    (genEntry now d b v tr r i).timestamp = now - (i : Int) * 60 * 1000 := rfl

/-- `Math.max(0, x)` of two finite numbers is finite and nonnegative. -/
theorem max0_val_nonneg (x : ℚ) :
    ∃ q, JsNum.max (JsNum.val 0) (JsNum.val x) = JsNum.val q ∧ 0 ≤ q :=
  ⟨if (0 : ℚ) ≤ x then x else 0, rfl, by split <;> simp_all⟩

/-- Away from the `0/0` corner (positive duration, or a stable trend),
every generated sample value is a finite nonnegative number. -/
theorem genEntry_value_nonneg (now : Int) (d : Nat) (b v : ℚ) (tr : Trend)
    (r : Nat → ℚ) (i : Nat) (h : 1 ≤ d ∨ tr = Trend.stable) :
    ∃ q, (genEntry now d b v tr r i).value = JsNum.val q ∧ 0 ≤ q := by
  cases tr with
  | stable =>
    have hv : (genEntry now d b v Trend.stable r i).value
        = JsNum.max (JsNum.val 0) (JsNum.val (b + 0 + (r (d - i) - 0.5) * v)) := by
      simp [genEntry, JsNum.add]
    rw [hv]
    exact max0_val_nonneg _
  | increasing =>
    have hd : 1 ≤ d := by
      rcases h with hd | hst
      · exact hd
      · cases hst
    have hdq : ((d : ℚ)) ≠ 0 := Nat.cast_ne_zero.mpr (Nat.one_le_iff_ne_zero.mp hd)
    have hv : (genEntry now d b v Trend.increasing r i).value
        = JsNum.max (JsNum.val 0)
            (JsNum.val (b + (((d - i : Nat) : ℚ) / (d : ℚ)) * 30 + (r (d - i) - 0.5) * v)) := by
      simp [genEntry, JsNum.div, hdq, JsNum.mul, JsNum.add]
    rw [hv]
    exact max0_val_nonneg _
  | decreasing =>
    have hd : 1 ≤ d := by
      rcases h with hd | hst
      · exact hd
      · cases hst
    have hdq : ((d : ℚ)) ≠ 0 := Nat.cast_ne_zero.mpr (Nat.one_le_iff_ne_zero.mp hd)
    have hv : (genEntry now d b v Trend.decreasing r i).value
        = JsNum.max (JsNum.val 0)
            (JsNum.val (b + -(((d - i : Nat) : ℚ) / (d : ℚ)) * 20 + (r (d - i) - 0.5) * v)) := by
      simp [genEntry, JsNum.div, hdq, JsNum.neg, JsNum.mul, JsNum.add]
    rw [hv]
    exact max0_val_nonneg _

/-- The loop produces one entry per counter value, `n + 1` in total. -/
theorem genLoop_length (now : Int) (d : Nat) (b v : ℚ) (tr : Trend)
    (r : Nat → ℚ) : ∀ n, (genLoop now d b v tr r n).length = n + 1 := by
  intro n
  induction n with
  | zero => rfl
  | succ k ih => simp [genLoop, ih]

/-- Every member of the loop output is the entry of some counter value. -/
theorem genLoop_mem (now : Int) (d : Nat) (b v : ℚ) (tr : Trend)
    (r : Nat → ℚ) : ∀ n m, m ∈ genLoop now d b v tr r n →
      ∃ i, m = genEntry now d b v tr r i := by
  intro n
  induction n with
  | zero =>
    intro m hm
    simp only [genLoop, List.mem_singleton] at hm
    exact ⟨0, hm⟩
  | succ k ih =>
    intro m hm
    simp only [genLoop, List.mem_cons] at hm
    rcases hm with rfl | hm
    · exact ⟨k + 1, rfl⟩
    · exact ih m hm

/-- The loop output starts with the entry of its counter argument. -/
theorem genLoop_cons (now : Int) (d : Nat) (b v : ℚ) (tr : Trend)
    (r : Nat → ℚ) (n : Nat) :
    ∃ rest, genLoop now d b v tr r n = genEntry now d b v tr r n :: rest := by
  cases n with
  | zero => exact ⟨[], rfl⟩
  | succ k => exact ⟨genLoop now d b v tr r k, rfl⟩

/-- Consecutive loop entries are exactly one minute (60000 ms) apart,
later entries later. -/
theorem genLoop_chain (now : Int) (d : Nat) (b v : ℚ) (tr : Trend)
    (r : Nat → ℚ) : ∀ n, List.Chain'
      (fun x y : TelemetryMetric => y.timestamp = x.timestamp + 60000)
      (genLoop now d b v tr r n) := by
  intro n
  induction n with
  | zero => exact List.chain'_singleton _
  | succ k ih =>
    obtain ⟨rest, hr⟩ := genLoop_cons now d b v tr r k
    rw [show genLoop now d b v tr r (k + 1)
        = genEntry now d b v tr r (k + 1) :: genLoop now d b v tr r k from rfl, hr]
    rw [hr] at ih
    refine List.chain'_cons.mpr ⟨?_, ih⟩
    rw [genEntry_timestamp, genEntry_timestamp]
    push_cast
    ring

/-- The timestamps of the loop output end at `now`. -/
theorem genLoop_ts_concat (now : Int) (d : Nat) (b v : ℚ) (tr : Trend)
    (r : Nat → ℚ) : ∀ n, ∃ l,
      (genLoop now d b v tr r n).map (fun m => m.timestamp) = l ++ [now] := by
  intro n
  induction n with
  | zero =>
    refine ⟨[], ?_⟩
    simp [genLoop, genEntry_timestamp]
  | succ k ih =>
    obtain ⟨l, hl⟩ := ih
    refine ⟨(genEntry now d b v tr r (k + 1)).timestamp :: l, ?_⟩
    rw [show genLoop now d b v tr r (k + 1)
        = genEntry now d b v tr r (k + 1) :: genLoop now d b v tr r k from rfl]
    rw [List.map_cons, hl]
    rfl

/-- Claim C9 (amended): for every duration that is positive — or any
duration when the trend is stable — `generateMetricTimeSeries` returns
exactly `duration + 1` samples whose timestamps strictly increase at
one-minute spacing ending at the current time, and every sample value
is a finite number ≥ 0. (At `duration = 0` with an increasing or
decreasing trend the source computes `0 / 0`, a NaN sample value — see
the counterexample.) -/
theorem generateMetricTimeSeries_spec (rand : Nat → ℚ) (now : Int)
    (duration : Nat) (baseline volatility : ℚ) (trend : Trend)
    (h : 1 ≤ duration ∨ trend = Trend.stable) :
    (generateMetricTimeSeries rand now duration baseline volatility trend).length
        = duration + 1 ∧
      List.Chain' (fun x y : TelemetryMetric => y.timestamp = x.timestamp + 60000)
        (generateMetricTimeSeries rand now duration baseline volatility trend) ∧
      ((generateMetricTimeSeries rand now duration baseline volatility trend).map
          (fun m => m.timestamp)).getLast? = some now ∧
      ∀ m ∈ generateMetricTimeSeries rand now duration baseline volatility trend,
        ∃ q, m.value = JsNum.val q ∧ 0 ≤ q := by
  refine ⟨genLoop_length now duration baseline volatility trend rand duration,
    genLoop_chain now duration baseline volatility trend rand duration, ?_, ?_⟩
  · obtain ⟨l, hl⟩ := genLoop_ts_concat now duration baseline volatility trend rand duration
    rw [generateMetricTimeSeries, hl]
    exact List.getLast?_concat l
  · intro m hm
    obtain ⟨i, rfl⟩ := genLoop_mem now duration baseline volatility trend rand duration m hm
    exact genEntry_value_nonneg now duration baseline volatility trend rand i h

theorem generateMetricTimeSeries_spec_witness :
    (1 ≤ 2 ∨ Trend.increasing = Trend.stable) ∧
      ((generateMetricTimeSeries (fun _ => 1/2) 0 2 50 10 Trend.increasing).length = 2 + 1 ∧
        List.Chain' (fun x y : TelemetryMetric => y.timestamp = x.timestamp + 60000)
          (generateMetricTimeSeries (fun _ => 1/2) 0 2 50 10 Trend.increasing) ∧
        ((generateMetricTimeSeries (fun _ => 1/2) 0 2 50 10 Trend.increasing).map
            (fun m => m.timestamp)).getLast? = some 0 ∧
        ∀ m ∈ generateMetricTimeSeries (fun _ => 1/2) 0 2 50 10 Trend.increasing,
          ∃ q, m.value = JsNum.val q ∧ 0 ≤ q) :=
  ⟨Or.inl (by decide),
    generateMetricTimeSeries_spec (fun _ => 1/2) 0 2 50 10 Trend.increasing (Or.inl (by decide))⟩

/-- Claim C9, counterexample: at `duration = 0` with an increasing trend
the single generated sample has value NaN (`(0 - 0) / 0` in the
source), so it is not a number ≥ 0 — the claim fails for duration 0. -/
theorem generateMetricTimeSeries_zero_duration_nan :
    ¬ (∀ m ∈ generateMetricTimeSeries (fun _ => 1/2) 0 0 50 10 Trend.increasing,
        ∃ q, m.value = JsNum.val q ∧ 0 ≤ q) := by
  intro hall
  have hm : genEntry 0 0 50 10 Trend.increasing (fun _ => 1/2) 0
      ∈ generateMetricTimeSeries (fun _ => 1/2) 0 0 50 10 Trend.increasing := by
    simp [generateMetricTimeSeries, genLoop]
  obtain ⟨q, hq, _⟩ := hall _ hm
  have hnan : (genEntry 0 0 50 10 Trend.increasing (fun _ => 1/2) 0).value = JsNum.nan := by
    decide
  rw [hnan] at hq
  cases hq

/-- A failed request always surfaces as a thrown error. -/
theorem apiFetch_not_ok (resp : HttpResponse) (h : resp.ok = false) :
    ∃ msg, apiFetch resp = Except.error msg := by
  rw [apiFetch, if_neg (by simp [h])]
  rcases resp.jsonBody with _ | j
  · dsimp only
    rcases (Json.obj [("detail", Json.str resp.statusText)]).detailString with _ | d
    · exact ⟨_, rfl⟩
    · dsimp only
      split
      · exact ⟨_, rfl⟩
      · exact ⟨_, rfl⟩
  · dsimp only
    rcases j.detailString with _ | d
    · exact ⟨_, rfl⟩
    · dsimp only
      split
      · exact ⟨_, rfl⟩
      · exact ⟨_, rfl⟩

/-- Claim C10: `apiFetch` throws an Error whenever the response is not
ok — carrying the backend's `detail` message when the parsed error body
has a nonempty one — and returns the parsed JSON body exactly for ok
responses; it never returns a value for a failed request. -/
theorem apiFetch_spec (resp : HttpResponse) :
    (resp.ok = false → ∃ msg, apiFetch resp = Except.error msg) ∧
      (resp.ok = false → ∀ j d, resp.jsonBody = some j → j.detailString = some d →
        d ≠ "" → apiFetch resp = Except.error d) ∧
      (resp.ok = true → ∀ j, resp.jsonBody = some j → apiFetch resp = Except.ok j) ∧
      (∀ j, apiFetch resp = Except.ok j → resp.ok = true) := by
  refine ⟨apiFetch_not_ok resp, ?_, ?_, ?_⟩
  · intro hok j d hj hd hne
    rw [apiFetch, if_neg (by simp [hok]), hj]
    dsimp only
    rw [hd]
    dsimp only
    rw [if_neg hne]
  · intro hok j hj
    rw [apiFetch, if_pos (by simp [hok]), hj]
  · intro j hj
    cases hok : resp.ok
    · obtain ⟨msg, hmsg⟩ := apiFetch_not_ok resp hok
      rw [hmsg] at hj
      cases hj
    · rfl

theorem apiFetch_spec_witness :
    apiFetch respBadRequest = Except.error "boom" :=
  (apiFetch_spec respBadRequest).2.1 rfl (Json.obj [("detail", Json.str "boom")]) "boom"
    rfl rfl (by decide)

end Volt
